import Mathlib

/-!
# Verification of the `arduinoWaterPlant` irrigation sketch

Shallow embedding of `src/sketch_pl.ino` (the "Princess Lea" plant-watering
sketch) and proofs about its dry-confirmation / pulsed-dosing logic.

The sketch keeps three pieces of mutable state that the irrigation logic
reads and writes on each sampling tick (the body of the
`currentMillis - previousMillisSense >= intervalSense` block in `loop`):
`dryTimeSum`, `addWaterSum` (both `unsigned long`, in milliseconds), the
relay (pump) level last written with `digitalWrite`, plus the derived
display/state strings `timeAddH20` and `lcd_line2`.

Machine-integer remark: `dryTimeSum` and `addWaterSum` are `unsigned long`
(32 bits on AVR).  We model them as `ℕ`: the proved invariant
`Inv_run` shows every reachable value stays at or below `200000`, far below
`2 ^ 32`, so wraparound can never occur and the plain-`ℕ` model is faithful.

`float` quantities (`soilMoisturePercent`, `thresholdAddWater`, the
calibration constants) enter the tick logic only through the comparison
`soilMoisturePercent < thresholdAddWater` and through exact arithmetic on
values such as `37.0 ± 1.0`; we model them as `ℚ`.
-/

namespace WaterPlant

/-- Source constant `const float AirValue = 620;` (raw reading in air, i.e. fully dry). -/
def AirValue : ℚ := 620

/-- Source constant `const float WaterValue = 35;` (raw reading in water, i.e. fully wet). -/
def WaterValue : ℚ := 35

/-- Source variable `float thresholdAddWater = 37.00;` (initial moisture threshold). -/
def initialThreshold : ℚ := 37

/-- Source constant `const long dryTime = 180000;` dry-confirmation duration in ms. -/
def dryTime : ℕ := 180000

/-- Source constant `const long addWater = 20000;` dose (pump-on) duration in ms. -/
def addWater : ℕ := 20000

/-- Source variable `unsigned long intervalSense = 1000;` the sampling interval in ms. -/
def intervalSense : ℕ := 1000

/-- The mutable state the sampling-tick logic of `loop` reads and writes:
the two accumulators, the last relay command, the derived countdown
variable `timeAddH20` and the status line `lcd_line2`. -/
structure PState where
  dryTimeSum : ℕ
  addWaterSum : ℕ
  pumpOn : Bool
  timeAddH20 : ℕ
  lcd_line2 : String

/-- The state after `setup()`: both accumulators are initialised to `0`,
`timeAddH20 = 0`, the relay pin has just been configured as an output
(level LOW, pump off) and `lcd_line2` holds its initial text. -/
def init : PState :=
  { dryTimeSum := 0, addWaterSum := 0, pumpOn := false,
    timeAddH20 := 0, lcd_line2 := "1st measurement      " }

/-- Line 136 of the sketch, with the calibration constants left as
parameters:
`soilMoisturePercent = 100 - (soilMoistureValue - WaterValue) / (AirValue - WaterValue) * 100;`. -/
def readMoisturePercentCal (raw dryRaw wetRaw : ℚ) : ℚ :=
  100 - (raw - wetRaw) / (dryRaw - wetRaw) * 100

/-- Line 136 of the sketch with the configured calibration constants. -/
def readMoisturePercent (raw : ℚ) : ℚ :=
  readMoisturePercentCal raw AirValue WaterValue

/-- The `soilMoisturePercent < thresholdAddWater` branch of a sampling tick
(lines 141–163, with the in-place update `dryTimeSum = dryTimeSum +
intervalSense` inlined): add `intervalSense` to `dryTimeSum`; if the accumulated dry
time has reached `dryTime`, either dose (pump HIGH, `addWaterSum` grows) or,
once `addWaterSum` has reached `addWater`, reset both accumulators and set
the pump LOW; otherwise only update the countdown display.  Note that the
countdown branch performs no `digitalWrite`, so the relay keeps its previous
level, and that the reset branch's `lcd_line2` assignment is commented out
in the source. -/
def dryTick (s : PState) : PState :=
  if dryTime ≤ s.dryTimeSum + intervalSense then
    if s.addWaterSum < addWater then
      { dryTimeSum := s.dryTimeSum + intervalSense,
        addWaterSum := s.addWaterSum + intervalSense,
        pumpOn := true, timeAddH20 := s.timeAddH20,
        lcd_line2 := "Add H20 for " ++ toString (addWater / 1000) ++ "s   " }
    else
      { dryTimeSum := 0, addWaterSum := 0, pumpOn := false,
        timeAddH20 := s.timeAddH20, lcd_line2 := s.lcd_line2 }
  else
    { dryTimeSum := s.dryTimeSum + intervalSense, addWaterSum := s.addWaterSum,
      pumpOn := s.pumpOn,
      timeAddH20 := dryTime - (s.dryTimeSum + intervalSense),
      lcd_line2 := "H20 add in " ++
        toString ((dryTime - (s.dryTimeSum + intervalSense)) / 1000) ++ "s   " }

/-- The `else` branch of a sampling tick (lines 165–169): pump LOW and a
"happy" status line.  The accumulators are left untouched by the source. -/
def satTick (s : PState) : PState :=
  { dryTimeSum := s.dryTimeSum, addWaterSum := s.addWaterSum,
    pumpOn := false, timeAddH20 := s.timeAddH20,
    lcd_line2 := "Lea is Happy    " }

/-- One sampling tick of `loop` (lines 129–172), after the moisture
percentage `m` has been computed, against the current threshold `t`. -/
def tick (m t : ℚ) (s : PState) : PState :=
  if m < t then dryTick s else satTick s

/-- One sampling tick starting from the raw sensor value, calibration
constants included (lines 132–172). -/
def tickFromRaw (raw dryRaw wetRaw t : ℚ) (s : PState) : PState :=
  tick (readMoisturePercentCal raw dryRaw wetRaw) t s

/-- A run of sampling ticks: each list element is the pair
(moisture percentage, threshold) in force at that tick (the threshold may
change between ticks through the buttons). -/
def run (l : List (ℚ × ℚ)) (s : PState) : PState :=
  l.foldl (fun s p => tick p.1 p.2 s) s

/-- The all-dry scenario of the spec: `n` sampling ticks with the moisture
reading held at 30.0 against the initial threshold 37.0, from `init`. -/
def scenario (n : ℕ) : PState :=
  run (List.replicate n (30, initialThreshold)) init

/-- The button-handling block of `loop` (lines 117–124): `button1.isPressed()`
(an "increase" edge) adds 1 to the threshold, then `button2.isPressed()`
(a "decrease" edge) subtracts 1.  One loop iteration is an event pair
`(inc, dec)`. -/
def buttonStep (t : ℚ) (e : Bool × Bool) : ℚ :=
  let t1 := if e.1 then t + 1 else t
  if e.2 then t1 - 1 else t1

/-- Threshold evolution over a sequence of loop iterations. -/
def applyEvents (es : List (Bool × Bool)) (t : ℚ) : ℚ :=
  es.foldl buttonStep t

/-- Number of "increase" press edges in an event list. -/
def countInc (es : List (Bool × Bool)) : ℕ := es.countP (fun e => e.1)

/-- Number of "decrease" press edges in an event list. -/
def countDec (es : List (Bool × Bool)) : ℕ := es.countP (fun e => e.2)

/-- Number of dry sampling ticks (moisture below threshold) in a run. -/
def dryCount (l : List (ℚ × ℚ)) : ℕ := l.countP (fun p => decide (p.1 < p.2))

end WaterPlant

namespace WaterPlant

/-! ## Basic lemmas about ticks and runs -/

theorem tick_of_lt {m t : ℚ} (s : PState) (h : m < t) :
    tick m t s = dryTick s := by
  simp [tick, h]

theorem tick_of_not_lt {m t : ℚ} (s : PState) (h : ¬ m < t) :
    tick m t s = satTick s := by
  simp [tick, h]

theorem run_nil (s : PState) : run [] s = s := rfl

theorem run_cons (p : ℚ × ℚ) (l : List (ℚ × ℚ)) (s : PState) :
    run (p :: l) s = run l (tick p.1 p.2 s) := rfl

theorem run_append (l₁ l₂ : List (ℚ × ℚ)) (s : PState) :
    run (l₁ ++ l₂) s = run l₂ (run l₁ s) := by
  simp [run, List.foldl_append]

theorem scenario_succ (n : ℕ) :
    scenario (n + 1) = tick 30 initialThreshold (scenario n) := by
  unfold scenario
  rw [List.replicate_succ', run_append, run_cons, run_nil]

/-! ## The reachability invariant -/

/-- Invariant of all states reachable from `init`: both accumulators are
multiples of the sampling interval, `addWaterSum` never exceeds `addWater`,
`dryTimeSum` never exceeds `dryTime - intervalSense + addWaterSum`, and a
positive dose accumulator or a running pump certifies that the full
dry-confirmation time has accumulated. -/
def Inv (s : PState) : Prop :=
  1000 ∣ s.dryTimeSum ∧ 1000 ∣ s.addWaterSum ∧
  s.addWaterSum ≤ addWater ∧
  s.dryTimeSum ≤ (dryTime - intervalSense) + s.addWaterSum ∧
  (0 < s.addWaterSum → dryTime ≤ s.dryTimeSum) ∧
  (s.pumpOn = true → dryTime ≤ s.dryTimeSum)

theorem Inv_init : Inv init := by
  simp [Inv, init, dryTime, addWater, intervalSense]

theorem Inv_reset (a : ℕ) (str : String) :
    Inv ⟨0, 0, false, a, str⟩ := by
  simp [Inv, dryTime, addWater, intervalSense]

theorem Inv_dryTick {s : PState} (h : Inv s) : Inv (dryTick s) := by
  unfold Inv at h ⊢
  unfold dryTime addWater intervalSense at h ⊢
  by_cases h1 : (180000 : ℕ) ≤ s.dryTimeSum + 1000
  · by_cases h2 : s.addWaterSum < 20000
    · simp only [dryTick, dryTime, addWater, intervalSense, if_pos h1, if_pos h2]
      simp only [forall_const]
      omega
    · simp only [dryTick, dryTime, addWater, intervalSense, if_pos h1, if_neg h2]
      simp only [Bool.false_eq_true, false_implies, and_true]
      omega
  · simp only [dryTick, dryTime, addWater, intervalSense, if_neg h1]
    rcases h with ⟨hd1, hd2, hd3, hd4, hd5, hd6⟩
    refine ⟨by omega, hd2, hd3, by omega, by omega, ?_⟩
    intro hp
    exact absurd (hd6 hp) (by omega)

theorem Inv_satTick {s : PState} (h : Inv s) : Inv (satTick s) := by
  unfold Inv at h ⊢
  unfold satTick
  simp only
  rcases h with ⟨h1, h2, h3, h4, h5, h6⟩
  exact ⟨h1, h2, h3, h4, h5, by simp⟩

theorem Inv_tick (m t : ℚ) {s : PState} (h : Inv s) : Inv (tick m t s) := by
  unfold tick
  split
  · exact Inv_dryTick h
  · exact Inv_satTick h

theorem Inv_run (l : List (ℚ × ℚ)) {s : PState} (h : Inv s) :
    Inv (run l s) := by
  induction l generalizing s with
  | nil => exact h
  | cons p l ih => exact ih (Inv_tick p.1 p.2 h)

/-! ## Phase analyses -/

/-- Confirming-Dry phase: as long as the accumulated dry time stays below
`dryTime`, consecutive dry ticks only advance `dryTimeSum`; the dose
accumulator stays at zero and the relay keeps its previous level (the
countdown branch performs no `digitalWrite`). -/
theorem run_dry_confirm (l : List (ℚ × ℚ)) :
    ∀ s : PState, (∀ p ∈ l, p.1 < p.2) → s.addWaterSum = 0 →
    s.dryTimeSum + intervalSense * l.length < dryTime →
    (run l s).dryTimeSum = s.dryTimeSum + intervalSense * l.length ∧
    (run l s).addWaterSum = 0 ∧ (run l s).pumpOn = s.pumpOn := by
  induction l with
  | nil =>
    intro s _ hw _
    simp [run_nil, hw]
  | cons p l ih =>
    intro s hdry hw hlt
    rw [run_cons, tick_of_lt _ (hdry p (by simp))]
    simp only [List.length_cons] at hlt ⊢
    have hcond : ¬ (dryTime ≤ s.dryTimeSum + intervalSense) := by
      unfold dryTime intervalSense at hlt ⊢
      omega
    unfold dryTick
    rw [if_neg hcond]
    have hres := ih
      { dryTimeSum := s.dryTimeSum + intervalSense,
        addWaterSum := s.addWaterSum, pumpOn := s.pumpOn,
        timeAddH20 := dryTime - (s.dryTimeSum + intervalSense),
        lcd_line2 := "H20 add in " ++
          toString ((dryTime - (s.dryTimeSum + intervalSense)) / 1000) ++ "s   " }
      (fun q hq => hdry q (by simp [hq]))
      (by simpa using hw)
      (by simp only; unfold dryTime intervalSense at hlt ⊢; omega)
    refine ⟨?_, hres.2.1, hres.2.2⟩
    rw [hres.1]
    simp only
    ring

/-- Satisfied ticks leave both accumulators untouched and keep the pump
off when it was off. -/
theorem run_sat (l : List (ℚ × ℚ)) :
    ∀ s : PState, (∀ p ∈ l, ¬ p.1 < p.2) → s.pumpOn = false →
    (run l s).dryTimeSum = s.dryTimeSum ∧
    (run l s).addWaterSum = s.addWaterSum ∧ (run l s).pumpOn = false := by
  induction l with
  | nil => simp [run_nil]
  | cons p l ih =>
    intro s hsat hp
    rw [run_cons, tick_of_not_lt _ (hsat p (by simp))]
    exact ih (satTick s) (fun q hq => hsat q (by simp [hq])) rfl

/-- Growth bound: `dryTimeSum` grows by at most `intervalSense` per dry tick and not at
all on satisfied ticks. -/
theorem run_dry_bound (l : List (ℚ × ℚ)) :
    ∀ s : PState,
    (run l s).dryTimeSum ≤ s.dryTimeSum + intervalSense * dryCount l := by
  induction l with
  | nil => simp [run_nil, dryCount]
  | cons p l ih =>
    intro s
    rw [run_cons]
    by_cases hp : p.1 < p.2
    · rw [tick_of_lt _ hp]
      have hcount : dryCount (p :: l) = dryCount l + 1 := by
        simp [dryCount, List.countP_cons, hp]
      have hstep : (dryTick s).dryTimeSum ≤ s.dryTimeSum + intervalSense := by
        unfold dryTick
        split
        · split
          · simp
          · simp
        · simp
      calc (run l (dryTick s)).dryTimeSum
          ≤ (dryTick s).dryTimeSum + intervalSense * dryCount l := ih _
        _ ≤ s.dryTimeSum + intervalSense + intervalSense * dryCount l := by omega
        _ = s.dryTimeSum + intervalSense * dryCount (p :: l) := by
            rw [hcount]; ring
    · rw [tick_of_not_lt _ hp]
      have hcount : dryCount (p :: l) = dryCount l := by
        simp [dryCount, List.countP_cons, hp]
      have := ih (satTick s)
      simp only [satTick] at this
      rw [hcount]
      exact this

/-- From a freshly reset state, the pump cannot be running again until at
least `dryTime / intervalSense` further dry ticks have occurred. -/
theorem pump_needs_dry_ticks (l : List (ℚ × ℚ)) {s : PState} (hInv : Inv s)
    (hd : s.dryTimeSum = 0) (hpump : (run l s).pumpOn = true) :
    dryTime ≤ intervalSense * dryCount l := by
  have h1 := (Inv_run l hInv).2.2.2.2.2 hpump
  have h2 := run_dry_bound l s
  omega

/-- Dosing phase of the all-dry scenario: for `j ≤ 19`, tick `180 + j` has
the pump on, with `dryTimeSum = 180000 + 1000 j` and
`addWaterSum = 1000 (j + 1)`. -/
theorem scenario_dose : ∀ j : ℕ, j ≤ 19 →
    (scenario (180 + j)).dryTimeSum = 180000 + 1000 * j ∧
    (scenario (180 + j)).addWaterSum = 1000 * (j + 1) ∧
    (scenario (180 + j)).pumpOn = true := by
  intro j
  induction j with
  | zero =>
    intro _
    refine ⟨?_, ?_, ?_⟩ <;> · show _ = _
                              set_option maxRecDepth 100000 in decide
  | succ j ih =>
    intro hj
    have hj' : j ≤ 19 := by omega
    obtain ⟨hd, hw, hp⟩ := ih hj'
    have hstep : scenario (180 + (j + 1)) =
        tick 30 initialThreshold (scenario (180 + j)) := by
      have : 180 + (j + 1) = (180 + j) + 1 := by omega
      rw [this, scenario_succ]
    have hlt : (30 : ℚ) < initialThreshold := by
      unfold initialThreshold; norm_num
    rw [hstep, tick_of_lt _ hlt]
    unfold dryTick
    have hcond : dryTime ≤ (scenario (180 + j)).dryTimeSum + intervalSense := by
      unfold dryTime intervalSense
      omega
    have hcond2 : (scenario (180 + j)).addWaterSum < addWater := by
      unfold addWater
      omega
    rw [if_pos hcond, if_pos hcond2]
    refine ⟨?_, ?_, rfl⟩ <;> · simp only
                               unfold intervalSense
                               omega

set_option linter.unusedTactic false in
/-- The threshold after any sequence of loop iterations is the initial
threshold plus the number of "increase" edges minus the number of
"decrease" edges. -/
theorem applyEvents_eq (es : List (Bool × Bool)) :
    ∀ t : ℚ, applyEvents es t = t + countInc es - countDec es := by
  induction es with
  | nil => simp [applyEvents, countInc, countDec]
  | cons e es ih =>
    intro t
    have hstep : applyEvents (e :: es) t = applyEvents es (buttonStep t e) := rfl
    rw [hstep, ih]
    rcases e with ⟨b1, b2⟩
    simp only [countInc, countDec, List.countP_cons]
    cases b1 <;> cases b2 <;>
      simp [buttonStep, countInc, countDec] <;> push_cast <;> ring

/-- Every sampling tick leaves `lcd_line2` in one of the four forms the
source can produce: the "happy" line, the dosing line, the countdown line,
or (in the reset branch, whose display write is commented out) the previous
line. -/
theorem tick_lcd_cases (m t : ℚ) (s : PState) :
    (tick m t s).lcd_line2 = "Lea is Happy    " ∨
    (tick m t s).lcd_line2 = "Add H20 for 20s   " ∨
    (tick m t s).lcd_line2 = s.lcd_line2 ∨
    ∃ d : ℕ, (tick m t s).lcd_line2 = "H20 add in " ++ toString d ++ "s   " := by
  unfold tick dryTick satTick
  split
  · split
    · split
      · right; left
        simp only
        rfl
      · right; right; left
        simp only
    · right; right; right
      exact ⟨(dryTime - (s.dryTimeSum + intervalSense)) / 1000, by simp only⟩
  · left
    simp only

/-! ## Claims -/

set_option maxRecDepth 100000 in
/-- C1 (counterexample): the claim "on any satisfied tick both counters are
reset to 0" is false.  After 90 dry ticks (`dryTimeSum = 90000`), a
satisfied tick (moisture 40 ≥ threshold 37) leaves `dryTimeSum` at 90000,
not 0, and a subsequent dry tick continues to 91000 rather than restarting
from 0. -/
theorem satisfied_tick_no_reset_cex :
    (tick 40 37 (scenario 90)).dryTimeSum = 90000 ∧
    (tick 40 37 (scenario 90)).dryTimeSum ≠ 0 ∧
    (tick 30 37 (tick 40 37 (scenario 90))).dryTimeSum = 91000 := by
  refine ⟨?_, ?_, ?_⟩ <;> decide

/-- C1 (amended): on any sampling tick whose moisture reading is ≥ the
current threshold, the pump is commanded off, but both accumulators are
left unchanged (the satisfied branch of the source performs no reset); a
subsequent dry reading therefore continues from the previously accumulated
value. -/
theorem satisfied_tick_keeps_counters (m t : ℚ) (s : PState) (h : ¬ m < t) :
    (tick m t s).dryTimeSum = s.dryTimeSum ∧
    (tick m t s).addWaterSum = s.addWaterSum ∧
    (tick m t s).pumpOn = false := by
  rw [tick_of_not_lt _ h]
  exact ⟨rfl, rfl, rfl⟩

set_option maxRecDepth 100000 in
/-- Witness for C1 (amended) at moisture 40, threshold 37, after 90 dry
ticks. -/
theorem satisfied_tick_keeps_counters_witness :
    ¬ (40 : ℚ) < 37 ∧
    ((tick 40 37 (scenario 90)).dryTimeSum = (scenario 90).dryTimeSum ∧
     (tick 40 37 (scenario 90)).addWaterSum = (scenario 90).addWaterSum ∧
     (tick 40 37 (scenario 90)).pumpOn = false) :=
  ⟨by norm_num, satisfied_tick_keeps_counters 40 37 (scenario 90) (by norm_num)⟩

/-- C2: starting from zeroed accumulators, after 179 consecutive dry
sampling ticks the pump is still off, and any 180th consecutive dry tick
turns the pump on. -/
theorem dry_confirmation_delay (l : List (ℚ × ℚ)) (hlen : l.length = 179)
    (hdry : ∀ p ∈ l, p.1 < p.2) :
    (run l init).pumpOn = false ∧
    ∀ m t : ℚ, m < t → (tick m t (run l init)).pumpOn = true := by
  obtain ⟨hd, hw, hp⟩ := run_dry_confirm l init hdry rfl
    (by rw [hlen]; unfold dryTime intervalSense; simp [init])
  constructor
  · rw [hp]; rfl
  · intro m t hmt
    rw [tick_of_lt _ hmt]
    unfold dryTick
    have hcond : dryTime ≤ (run l init).dryTimeSum + intervalSense := by
      rw [hd, hlen]
      unfold dryTime intervalSense
      simp [init]
    have hcond2 : (run l init).addWaterSum < addWater := by
      rw [hw]
      unfold addWater
      omega
    rw [if_pos hcond, if_pos hcond2]

set_option maxRecDepth 100000 in
/-- Witness for C2: 179 ticks at moisture 30 against threshold 37, then a
180th such tick. -/
theorem dry_confirmation_delay_witness :
    (run (List.replicate 179 ((30 : ℚ), (37 : ℚ))) init).pumpOn = false ∧
    (tick 30 37 (run (List.replicate 179 ((30 : ℚ), (37 : ℚ))) init)).pumpOn
      = true := by
  obtain ⟨h1, h2⟩ := dry_confirmation_delay
    (List.replicate 179 ((30 : ℚ), (37 : ℚ)))
    (by simp)
    (by intro p hp; rw [List.eq_of_mem_replicate hp]; norm_num)
  exact ⟨h1, h2 30 37 (by norm_num)⟩

set_option maxRecDepth 100000 in
/-- C3: in the all-dry scenario the pump has been on for the 20 consecutive
dry ticks 180–199 (`addWaterSum` has reached `addWater`); the next dry tick
resets both accumulators to 0 and switches the pump off, and afterwards the
pump cannot run again until at least 180 further dry ticks have occurred. -/
theorem dose_ceiling_reset :
    ((scenario 199).pumpOn = true ∧ (scenario 199).addWaterSum = addWater) ∧
    ∀ m t : ℚ, m < t →
      (tick m t (scenario 199)).dryTimeSum = 0 ∧
      (tick m t (scenario 199)).addWaterSum = 0 ∧
      (tick m t (scenario 199)).pumpOn = false ∧
      ∀ l : List (ℚ × ℚ), (run l (tick m t (scenario 199))).pumpOn = true →
        180 ≤ dryCount l := by
  constructor
  · exact ⟨by decide, by decide⟩
  · intro m t hmt
    rw [tick_of_lt _ hmt]
    unfold dryTick
    have h199d : (scenario 199).dryTimeSum = 199000 := by decide
    have h199w : (scenario 199).addWaterSum = 20000 := by decide
    have hcond : dryTime ≤ (scenario 199).dryTimeSum + intervalSense := by
      rw [h199d]
      unfold dryTime intervalSense
      omega
    have hcond2 : ¬ ((scenario 199).addWaterSum < addWater) := by
      rw [h199w]
      unfold addWater
      omega
    rw [if_pos hcond, if_neg hcond2]
    refine ⟨rfl, rfl, rfl, ?_⟩
    intro l hl
    have hneed := pump_needs_dry_ticks l (Inv_reset _ _) rfl hl
    unfold dryTime intervalSense at hneed
    omega

/-- From any state with both accumulators zeroed, 180 consecutive ticks at
moisture 30 against threshold 37 switch the pump on. -/
theorem pump_on_after_180 (s : PState) (hd : s.dryTimeSum = 0)
    (hw : s.addWaterSum = 0) :
    (run (List.replicate 180 ((30 : ℚ), (37 : ℚ))) s).pumpOn = true := by
  obtain ⟨h179d, h179w, _⟩ := run_dry_confirm
    (List.replicate 179 ((30 : ℚ), (37 : ℚ))) s
    (by intro p hp
        rw [List.eq_of_mem_replicate hp]
        norm_num)
    hw
    (by rw [hd]
        simp only [List.length_replicate]
        unfold dryTime intervalSense
        omega)
  have h180 : (180 : ℕ) = 179 + 1 := rfl
  rw [h180, List.replicate_succ', run_append, run_cons, run_nil]
  have h30 : (30 : ℚ) < 37 := by norm_num
  rw [tick_of_lt _ h30]
  unfold dryTick
  have hcond : dryTime ≤
      (run (List.replicate 179 ((30 : ℚ), (37 : ℚ))) s).dryTimeSum
        + intervalSense := by
    rw [h179d, hd]
    simp only [List.length_replicate]
    unfold dryTime intervalSense
    omega
  have hcond2 :
      (run (List.replicate 179 ((30 : ℚ), (37 : ℚ))) s).addWaterSum
        < addWater := by
    rw [h179w]
    unfold addWater
    omega
  rw [if_pos hcond, if_pos hcond2]

set_option maxRecDepth 100000 in
/-- Witness for C3: the post-reset tick at moisture 30, threshold 37, and a
continuation of 180 further dry ticks during which the pump comes back on. -/
theorem dose_ceiling_reset_witness :
    (tick 30 37 (scenario 199)).dryTimeSum = 0 ∧
    180 ≤ dryCount (List.replicate 180 ((30 : ℚ), (37 : ℚ))) :=
  ⟨(dose_ceiling_reset.2 30 37 (by norm_num)).1,
   (dose_ceiling_reset.2 30 37 (by norm_num)).2.2.2
      (List.replicate 180 ((30 : ℚ), (37 : ℚ)))
      (pump_on_after_180 _
        (dose_ceiling_reset.2 30 37 (by norm_num)).1
        (dose_ceiling_reset.2 30 37 (by norm_num)).2.1)⟩

set_option maxRecDepth 100000 in
/-- C4 (counterexample): the claim "the pump is off for ticks 1 through
180" is false: in the constant-moisture-30 scenario against threshold 37
the pump is already on at tick 180. -/
theorem endtoend_tick180_cex :
    (scenario 180).pumpOn = true ∧ ¬ (scenario 180).pumpOn = false := by
  exact ⟨by decide, by decide⟩

set_option maxRecDepth 100000 in
/-- C4 (amended): with threshold 37.0 and the moisture reading held at 30.0,
the pump is off for ticks 1–179 (and at tick 0), on for ticks 180–199, and
off with both accumulators zeroed at tick 200; counting then restarts
(tick 201 has `dryTimeSum = 1000`, pump off). -/
theorem endtoend_timeline :
    (∀ n : ℕ, n ≤ 179 → (scenario n).pumpOn = false) ∧
    (∀ n : ℕ, 180 ≤ n → n ≤ 199 → (scenario n).pumpOn = true) ∧
    (scenario 200).pumpOn = false ∧ (scenario 200).dryTimeSum = 0 ∧
    (scenario 200).addWaterSum = 0 ∧
    (scenario 201).dryTimeSum = 1000 ∧ (scenario 201).addWaterSum = 0 ∧
    (scenario 201).pumpOn = false := by
  refine ⟨?_, ?_, by decide, by decide, by decide, by decide, by decide,
    by decide⟩
  · intro n hn
    obtain ⟨_, _, hp⟩ := run_dry_confirm
      (List.replicate n ((30 : ℚ), initialThreshold)) init
      (by intro p hp
          rw [List.eq_of_mem_replicate hp]
          unfold initialThreshold
          norm_num)
      rfl
      (by simp only [List.length_replicate, init]
          unfold dryTime intervalSense
          omega)
    exact hp.trans rfl
  · intro n h180 h199
    obtain ⟨_, _, hp⟩ := scenario_dose (n - 180) (by omega)
    have hn : 180 + (n - 180) = n := by omega
    rwa [hn] at hp

set_option maxRecDepth 100000 in
/-- Witness for C4 (amended) at ticks 179, 185 and the reset/restart
ticks. -/
theorem endtoend_timeline_witness :
    (scenario 179).pumpOn = false ∧ (scenario 185).pumpOn = true ∧
    (scenario 200).pumpOn = false :=
  ⟨endtoend_timeline.1 179 (by decide),
   endtoend_timeline.2.1 185 (by decide) (by decide),
   endtoend_timeline.2.2.1⟩

set_option maxRecDepth 100000 in
/-- C5 (counterexample): the claim "`dryTimeSum` never exceeds `dryTime` by
more than one sampling interval" is false: after 182 consecutive dry ticks
(a reachable state), `dryTimeSum = 182000 > 180000 + 1000`. -/
theorem counter_bound_cex :
    (scenario 182).dryTimeSum = 182000 ∧
    ¬ ((scenario 182).dryTimeSum ≤ dryTime + intervalSense) := by
  exact ⟨by decide, by decide⟩

/-- C5 (amended): in every state reachable from `init` the accumulators
(which are `ℕ`-valued, hence never negative) satisfy
`addWaterSum ≤ addWater` and
`dryTimeSum ≤ dryTime - intervalSense + addWater` (= 199000): `dryTimeSum`
may overshoot `dryTime` by up to `addWater - intervalSense`, one full dose
less one sampling interval, because it keeps accumulating during the
dosing phase. -/
theorem counter_bounds (l : List (ℚ × ℚ)) :
    (run l init).addWaterSum ≤ addWater ∧
    (run l init).dryTimeSum ≤ dryTime - intervalSense + addWater := by
  obtain ⟨_, _, h3, h4, _, _⟩ := Inv_run l Inv_init
  refine ⟨h3, ?_⟩
  simp only [dryTime, intervalSense, addWater] at h3 h4 ⊢
  omega

/-- C6: the moisture conversion computes
`percent = 100 - (raw - wetRaw) / (dryRaw - wetRaw) * 100`; with the
configured calibration (`AirValue = 620`, `WaterValue = 35`) a raw reading
of 620 yields 0 %, a raw reading of 35 yields 100 %, and the percentage is
monotonically non-increasing in the raw value. -/
theorem moisture_conversion :
    (∀ r : ℚ, readMoisturePercent r =
      100 - (r - WaterValue) / (AirValue - WaterValue) * 100) ∧
    readMoisturePercent 620 = 0 ∧
    readMoisturePercent 35 = 100 ∧
    ∀ r1 r2 : ℚ, r1 ≤ r2 → readMoisturePercent r2 ≤ readMoisturePercent r1 := by
  refine ⟨fun r => rfl, ?_, ?_, ?_⟩
  · norm_num [readMoisturePercent, readMoisturePercentCal, AirValue, WaterValue]
  · norm_num [readMoisturePercent, readMoisturePercentCal, AirValue, WaterValue]
  · intro r1 r2 h
    unfold readMoisturePercent readMoisturePercentCal AirValue WaterValue
    rw [div_mul_eq_mul_div, div_mul_eq_mul_div]
    rw [sub_le_sub_iff_left]
    rw [div_le_div_iff_of_pos_right (by norm_num : (0 : ℚ) < 620 - 35)]
    nlinarith

/-- Witness for C6 (monotonicity part) at raw readings 100 ≤ 200. -/
theorem moisture_conversion_witness :
    (100 : ℚ) ≤ 200 ∧ readMoisturePercent 200 ≤ readMoisturePercent 100 :=
  ⟨by norm_num, moisture_conversion.2.2.2 100 200 (by norm_num)⟩

/-- C7: each detected press edge changes the threshold by exactly +1.0
(increase) or −1.0 (decrease), exactly once per edge and with no clamping:
the threshold after any event sequence is the starting value plus the
number of increase edges minus the number of decrease edges; in particular
any sequence with two increase edges and one decrease edge, however many
idle ticks separate them, takes 37.0 to 38.0. -/
theorem threshold_adjustment :
    (∀ (es : List (Bool × Bool)) (t : ℚ),
      applyEvents es t = t + countInc es - countDec es) ∧
    (∀ es : List (Bool × Bool), countInc es = 2 → countDec es = 1 →
      applyEvents es initialThreshold = 38) := by
  refine ⟨fun es t => applyEvents_eq es t, ?_⟩
  intro es h2 h1
  rw [applyEvents_eq, h2, h1]
  unfold initialThreshold
  norm_num

/-- Witness for C7: an increase edge, an idle iteration, another increase
edge, then a decrease edge. -/
theorem threshold_adjustment_witness :
    countInc [(true, false), (false, false), (true, false), (false, true)] = 2 ∧
    countDec [(true, false), (false, false), (true, false), (false, true)] = 1 ∧
    applyEvents [(true, false), (false, false), (true, false), (false, true)]
      initialThreshold = 38 :=
  ⟨by decide, by decide,
   threshold_adjustment.2 _ (by decide) (by decide)⟩

/-- C8: starting from a satisfied state with both accumulators at 0 and the
pump off, any sequence of satisfied sampling ticks (moisture ≥ threshold at
every tick) keeps both accumulators at 0 and the pump off. -/
theorem satisfied_idempotent (l : List (ℚ × ℚ))
    (hsat : ∀ p ∈ l, ¬ p.1 < p.2) (s : PState) (hd : s.dryTimeSum = 0)
    (hw : s.addWaterSum = 0) (hp : s.pumpOn = false) :
    (run l s).dryTimeSum = 0 ∧ (run l s).addWaterSum = 0 ∧
    (run l s).pumpOn = false := by
  obtain ⟨h1, h2, h3⟩ := run_sat l s hsat hp
  exact ⟨h1.trans hd, h2.trans hw, h3⟩

/-- Witness for C8: five ticks at moisture 50 against threshold 37 from the
initial state. -/
theorem satisfied_idempotent_witness :
    (run (List.replicate 5 ((50 : ℚ), (37 : ℚ))) init).dryTimeSum = 0 ∧
    (run (List.replicate 5 ((50 : ℚ), (37 : ℚ))) init).addWaterSum = 0 ∧
    (run (List.replicate 5 ((50 : ℚ), (37 : ℚ))) init).pumpOn = false :=
  satisfied_idempotent _
    (by intro p hp
        rw [List.eq_of_mem_replicate hp]
        norm_num)
    init rfl rfl rfl

/-- C9 (counterexample): with the calibration constants both set to 35
(`dryRaw = wetRaw`) and a raw reading of 620, the sketch still computes the
percentage formula and feeds the result to the ordinary state-machine
branches; the status line it produces is one of the ordinary status lines,
not an error report, and no error-handling path exists.  (In the `ℚ` model
the division by zero evaluates to 0, so the satisfied branch runs; under
IEEE-754 `float` semantics the same inputs give `-inf` and the countdown
branch runs — under both, the output is a normal status line and no error
is reported.) -/
theorem no_calibration_check_cex :
    tickFromRaw 620 35 35 37 init =
      tick (readMoisturePercentCal 620 35 35) 37 init ∧
    ((tickFromRaw 620 35 35 37 init).lcd_line2 = "Lea is Happy    " ∨
     (tickFromRaw 620 35 35 37 init).lcd_line2 = "H20 add in 179s   ") := by
  have hval : readMoisturePercentCal 620 35 35 = 100 := by
    norm_num [readMoisturePercentCal]
  refine ⟨rfl, Or.inl ?_⟩
  show (tick (readMoisturePercentCal 620 35 35) 37 init).lcd_line2 = _
  rw [hval, tick_of_not_lt _ (by norm_num)]
  rfl

set_option linter.unusedVariables false in
/-- C9 (amended): the sketch performs no configuration check on the
calibration constants: even when `dryRaw = wetRaw`, the tick computes the
percentage formula and runs the normal state-machine branches, and its
status output is always one of the ordinary status lines (happy, dosing,
countdown, or the unchanged previous line in the reset branch) — never an
error report, and no actuation-refusing error path exists. -/
theorem no_calibration_error_handling (dryRaw wetRaw raw t : ℚ)
    (s : PState) (h : dryRaw = wetRaw) :
    tickFromRaw raw dryRaw wetRaw t s =
      tick (readMoisturePercentCal raw dryRaw wetRaw) t s ∧
    ((tickFromRaw raw dryRaw wetRaw t s).lcd_line2 = "Lea is Happy    " ∨
     (tickFromRaw raw dryRaw wetRaw t s).lcd_line2 = "Add H20 for 20s   " ∨
     (tickFromRaw raw dryRaw wetRaw t s).lcd_line2 = s.lcd_line2 ∨
     ∃ d : ℕ, (tickFromRaw raw dryRaw wetRaw t s).lcd_line2 =
       "H20 add in " ++ toString d ++ "s   ") :=
  ⟨rfl, tick_lcd_cases _ _ _⟩

/-- Witness for C9 (amended) at equal calibration constants 35 = 35. -/
theorem no_calibration_error_handling_witness :
    (35 : ℚ) = 35 ∧
    (tickFromRaw 620 35 35 37 init =
       tick (readMoisturePercentCal 620 35 35) 37 init ∧
     ((tickFromRaw 620 35 35 37 init).lcd_line2 = "Lea is Happy    " ∨
      (tickFromRaw 620 35 35 37 init).lcd_line2 = "Add H20 for 20s   " ∨
      (tickFromRaw 620 35 35 37 init).lcd_line2 = init.lcd_line2 ∨
      ∃ d : ℕ, (tickFromRaw 620 35 35 37 init).lcd_line2 =
        "H20 add in " ++ toString d ++ "s   ")) :=
  ⟨rfl, no_calibration_error_handling 35 35 620 37 init rfl⟩

/-- C10: in every state reachable from `init`, a positive `addWaterSum`
implies the full dry-confirmation time has accumulated
(`dryTimeSum ≥ dryTime`): the dose accumulator only advances after dry
confirmation, and the two accumulators are only ever reset together. -/
theorem dose_implies_dry_confirmed (l : List (ℚ × ℚ))
    (h : 0 < (run l init).addWaterSum) :
    dryTime ≤ (run l init).dryTimeSum :=
  (Inv_run l Inv_init).2.2.2.2.1 h

set_option maxRecDepth 100000 in
/-- Witness for C10 after 180 dry ticks at moisture 30, threshold 37. -/
theorem dose_implies_dry_confirmed_witness :
    0 < (run (List.replicate 180 ((30 : ℚ), (37 : ℚ))) init).addWaterSum ∧
    dryTime ≤ (run (List.replicate 180 ((30 : ℚ), (37 : ℚ))) init).dryTimeSum :=
  ⟨by decide, dose_implies_dry_confirmed _ (by decide)⟩

end WaterPlant
